import Mathlib

/-
Verification of the up-py-rs messaging core: a transport-agnostic
publish/subscribe and notify layer addressed by structured URIs.

The repository ships the Python surface (wrappers, examples, tests); the
core engine (UUri, UMessage, UPayload, StaticUriProvider, ListenerRegistry,
LocalTransport, SimplePublisher, SimpleNotifier) is a native extension whose
source is not in the Python tree, so those components are modelled here from
the specification.  Listeners are opaque callables with no structure beyond
an identity usable for equality, so they are embedded as identifiers; a
dispatch is embedded as the list of invocation events (listener, message)
it performs, in invocation order.
-/

set_option autoImplicit false

namespace UpPyRs

/-- Modelled from the spec: `UUri` is an immutable structured address
`{authority, entity_id, version, resource_id}` with structural equality,
used as the registry key. -/
structure UUri where
  authority : String
  entity_id : Nat
  version : Nat
  resource_id : Nat
  deriving DecidableEq, Repr

/-- Modelled from the spec: `UPayload` wraps an opaque byte sequence. -/
structure UPayload where
  data : List Nat
  deriving DecidableEq, Repr

/-- Modelled from the spec: `UPayload.from_string` encodes the string as
UTF-8 bytes. -/
def UPayload.from_string (s : String) : UPayload :=
  ⟨s.toUTF8.toList.map (fun b => b.toNat)⟩

/-- Modelled from the spec: `UPayload.from_bytes` wraps raw bytes
(each reduced mod 256, the u8 range). -/
def UPayload.from_bytes (bs : List Nat) : UPayload :=
  ⟨bs.map (fun b => b % 256)⟩

/-- Modelled from the spec: the message kind enum `{Publish, Notification}`. -/
inductive UMessageKind where
  | publish
  | notification
  deriving DecidableEq, Repr

/-- Modelled from the spec: `UMessage` is the immutable envelope
`{source, destination, kind, payload}`; `destination` and `payload`
are optional. -/
structure UMessage where
  source : UUri
  destination : Option UUri
  kind : UMessageKind
  payload : Option UPayload
  deriving DecidableEq, Repr

/-- Modelled from the spec: `StaticUriProvider` holds an entity's static
identity `(authority, entity_id, version)`. -/
structure StaticUriProvider where
  authority : String
  entity_id : Nat
  version : Nat
  deriving DecidableEq, Repr

/-- Modelled from the spec: `resource_uri(resource_id)` fills the static
identity into a full `UUri` for the given resource id. -/
def StaticUriProvider.get_resource_uri (p : StaticUriProvider) (resource_id : Nat) : UUri :=
  ⟨p.authority, p.entity_id, p.version, resource_id⟩

/-- Modelled from the spec: `source_uri()` is the identity URI with
`resource_id = 0`. -/
def StaticUriProvider.get_source_uri (p : StaticUriProvider) : UUri :=
  p.get_resource_uri 0

/-- A listener is an opaque callable; it is embedded as an identifier,
which is all the registry needs (equality for unregistration). -/
abbrev Listener := Nat

/-- Modelled from the spec: the `ListenerRegistry` is a mapping from topic
`UUri` to a set of listeners, embedded as a list of (topic, listener)
pairs. -/
abbrev ListenerRegistry := List (UUri × Listener)

/-- Modelled from the spec: registration error taxonomy. -/
inductive RegistrationError where
  | listenerNotFound
  | invalidTopic
  deriving DecidableEq, Repr

/-- Modelled from the spec: `register(topic, listener)` inserts the listener
into the topic's set; duplicate registration is a no-op (a listener appears
at most once per topic). -/
def ListenerRegistry.register (reg : ListenerRegistry) (topic : UUri) (l : Listener) :
    ListenerRegistry :=
  if (topic, l) ∈ reg then reg else reg ++ [(topic, l)]

/-- Modelled from the spec: `unregister(topic, listener)` removes the
matching listener; fails with `ListenerNotFound` if no equal listener is
registered for that topic. -/
def ListenerRegistry.unregister (reg : ListenerRegistry) (topic : UUri) (l : Listener) :
    Except RegistrationError ListenerRegistry :=
  if (topic, l) ∈ reg then
    .ok (reg.filter (fun e => e ≠ (topic, l)))
  else
    .error .listenerNotFound

/-- Modelled from the spec: `dispatch(topic, message)` invokes every
currently-registered listener for `topic` with `message`, synchronously;
the embedding returns the list of invocation events performed. -/
def ListenerRegistry.dispatch (reg : ListenerRegistry) (topic : UUri) (m : UMessage) :
    List (Listener × UMessage) :=
  (reg.filter (fun e => e.1 = topic)).map (fun e => (e.2, m))

/-- Modelled from the spec: the `usize` return value of `dispatch` is the
count of listeners invoked. -/
def ListenerRegistry.dispatchCount (reg : ListenerRegistry) (topic : UUri) (m : UMessage) :
    Nat :=
  (reg.dispatch topic m).length

/-- Number of registry entries for a topic (the listeners currently
registered on it). -/
def ListenerRegistry.countListeners (reg : ListenerRegistry) (topic : UUri) : Nat :=
  (reg.filter (fun e => e.1 = topic)).length

/-- Modelled from the spec: transport error taxonomy. -/
inductive TransportError where
  | unavailable
  | invalidTopic
  | listenerNotFound
  deriving DecidableEq, Repr

/-- Modelled from the spec: `LocalTransport.send` resolves `message.source`
as the dispatch key (for Publish and Notification alike; the destination
does not affect in-process routing) and dispatches; the embedding returns
the invocation events. -/
def LocalTransport.send (reg : ListenerRegistry) (m : UMessage) :
    List (Listener × UMessage) :=
  reg.dispatch m.source m

/-- Modelled from the spec: `send` never fails for a well-formed message,
even with zero listeners (fire-and-forget); the `Result` it returns is
always `Ok`, carrying here the invocation events performed. -/
def LocalTransport.sendResult (reg : ListenerRegistry) (m : UMessage) :
    Except TransportError (List (Listener × UMessage)) :=
  .ok (LocalTransport.send reg m)

/-- Modelled from the source call sites and spec:
`LocalTransport.register_listener(uri_provider, resource_id, listener)`
subscribes the listener to the topic `uri_provider.get_resource_uri(resource_id)`
in the transport's registry. -/
def LocalTransport.register_listener (reg : ListenerRegistry)
    (provider : StaticUriProvider) (resource_id : Nat) (l : Listener) :
    ListenerRegistry :=
  reg.register (provider.get_resource_uri resource_id) l

/-- Modelled from the spec: `LocalTransport.unregister_listener` forwards to
the registry; on `ListenerNotFound` the registry state is unchanged.  The
embedding threads the state explicitly: it returns the new registry and the
error, if any. -/
def LocalTransport.unregister_listener (reg : ListenerRegistry) (topic : UUri)
    (l : Listener) : ListenerRegistry × Option RegistrationError :=
  match reg.unregister topic l with
  | .ok reg2 => (reg2, none)
  | .error e => (reg, some e)

/-- Modelled from the source call sites and spec:
`UPTransportZenoh.register_listener(topic_uri, listener)` takes the topic
URI directly (unlike `LocalTransport.register_listener`, which takes a
provider and a resource id). -/
def UPTransportZenoh.register_listener (reg : ListenerRegistry) (topic : UUri)
    (l : Listener) : ListenerRegistry :=
  reg.register topic l

/-- Modelled from the spec: the message `SimplePublisher.publish` builds:
`UMessage{source: uri_provider.resource_uri(resource_id), destination: None,
kind: Publish, payload}`. -/
def SimplePublisher.message (p : StaticUriProvider) (resource_id : Nat)
    (payload : Option UPayload) : UMessage :=
  ⟨p.get_resource_uri resource_id, none, .publish, payload⟩

/-- Modelled from the spec: `SimplePublisher.publish(resource_id, payload)`
builds the Publish message and hands exactly it to `transport.send`;
the embedding returns the invocation events of that send. -/
def SimplePublisher.publish (p : StaticUriProvider) (reg : ListenerRegistry)
    (resource_id : Nat) (payload : Option UPayload) :
    List (Listener × UMessage) :=
  LocalTransport.send reg (SimplePublisher.message p resource_id payload)

/-- Modelled from the spec: the `Result` of `publish` is that of
`transport.send`, hence always `Ok` on the local transport. -/
def SimplePublisher.publishResult (p : StaticUriProvider) (reg : ListenerRegistry)
    (resource_id : Nat) (payload : Option UPayload) :
    Except TransportError (List (Listener × UMessage)) :=
  LocalTransport.sendResult reg (SimplePublisher.message p resource_id payload)

/-- Modelled from the spec: the message `SimpleNotifier.notify` builds:
`UMessage{source: uri_provider.resource_uri(resource_id),
destination: Some(destination), kind: Notification, payload}`. -/
def SimpleNotifier.message (p : StaticUriProvider) (resource_id : Nat)
    (dest : UUri) (payload : Option UPayload) : UMessage :=
  ⟨p.get_resource_uri resource_id, some dest, .notification, payload⟩

/-- Modelled from the spec: `SimpleNotifier.notify(resource_id, destination,
payload)` builds the Notification message and sends it via the transport;
the embedding returns the invocation events of that send. -/
def SimpleNotifier.notify (p : StaticUriProvider) (reg : ListenerRegistry)
    (resource_id : Nat) (dest : UUri) (payload : Option UPayload) :
    List (Listener × UMessage) :=
  LocalTransport.send reg (SimpleNotifier.message p resource_id dest payload)

/-- Modelled from the spec: `start_listening` forwards to
`transport.register_listener` on the given topic. -/
def SimpleNotifier.start_listening (reg : ListenerRegistry) (topic : UUri)
    (l : Listener) : ListenerRegistry :=
  reg.register topic l

/-- Modelled from the spec: `stop_listening` forwards to
`transport.unregister_listener` on the given topic. -/
def SimpleNotifier.stop_listening (reg : ListenerRegistry) (topic : UUri)
    (l : Listener) : Except RegistrationError ListenerRegistry :=
  reg.unregister topic l

/-- A single-threaded sender publishing a sequence of payloads to one
resource id, in program order; the registry is unchanged by sends, and the
invocation events accumulate in send order. -/
def SimplePublisher.publishSeq (p : StaticUriProvider) (reg : ListenerRegistry)
    (resource_id : Nat) : List (Option UPayload) → List (Listener × UMessage)
  | [] => []
  | pl :: rest =>
      SimplePublisher.publish p reg resource_id pl ++
        SimplePublisher.publishSeq p reg resource_id rest

/-- What one listener observes from a trace of invocation events: the
payloads of the messages it was invoked with, in invocation order. -/
def observedPayloads (l : Listener) (events : List (Listener × UMessage)) :
    List (Option UPayload) :=
  (events.filter (fun e => e.1 = l)).map (fun e => e.2.payload)

/-- Number of registry entries equal to the pair (topic, listener): how many
times this exact pair is currently registered. -/
def pairCount (reg : ListenerRegistry) (topic : UUri) (l : Listener) : Nat :=
  (reg.filter (fun e => e = (topic, l))).length

/-- Outcome of executing a Python module's top-level import code: either the
module loads and exposes `__all__`, or an ImportError is raised with a
message and an optional chained cause. -/
inductive ModuleImportOutcome where
  | ok (exports : List String)
  | importError (message : String) (cause : Option String)
  deriving DecidableEq, Repr

/-- The import guard at the top of `src/up_py_rs/zenoh_transport.py`: it
tries to import the native Zenoh backend; on success it re-exports
`UPTransportZenoh` and `UPTransportZenohBuilder` (exactly those two names in
`__all__`); on ImportError it raises a new ImportError telling the user to
install `up-py-rs[zenoh]`, chained (`from e`) to the original error.  The
native import attempt is a parameter: `.ok` when the backend is present,
`.error e` carrying the original error otherwise. -/
def zenohTransportModuleInit (nativeImport : Except String Unit) :
    ModuleImportOutcome :=
  match nativeImport with
  | .ok _ => .ok ["UPTransportZenoh", "UPTransportZenohBuilder"]
  | .error e =>
      .importError
        "Zenoh transport not available. Install with: pip install up-py-rs[zenoh]"
        (some e)

/-- Concrete provider used by the tests: `StaticUriProvider("test-vehicle",
0xa34b, 0x01)`. -/
def sampleProvider : StaticUriProvider :=
  ⟨"test-vehicle", 0xa34b, 0x01⟩

/-- Concrete topic `sampleProvider.get_resource_uri(0xd100)`. -/
def sampleTopic : UUri :=
  sampleProvider.get_resource_uri 0xd100

/-- Concrete destination `sampleProvider.get_source_uri()`. -/
def sampleDest : UUri :=
  sampleProvider.get_source_uri

/-- Concrete payload: the bytes of "hello". -/
def samplePayload : UPayload :=
  UPayload.from_bytes [104, 101, 108, 108, 111]

/-- Concrete notification message on `sampleTopic`. -/
def sampleMessage : UMessage :=
  ⟨sampleTopic, some sampleDest, .notification, some samplePayload⟩

/-! ## Helper lemmas about the registry model -/

theorem register_of_mem (reg : ListenerRegistry) (topic : UUri) (l : Listener)
    (h : (topic, l) ∈ reg) : reg.register topic l = reg := by
  unfold ListenerRegistry.register
  rw [if_pos h]

theorem mem_register (reg : ListenerRegistry) (topic : UUri) (l : Listener) :
    (topic, l) ∈ reg.register topic l := by
  by_cases h : (topic, l) ∈ reg <;> simp [ListenerRegistry.register, h]

theorem pairCount_eq_zero_iff (reg : ListenerRegistry) (topic : UUri) (l : Listener) :
    pairCount reg topic l = 0 ↔ (topic, l) ∉ reg := by
  unfold pairCount
  rw [List.length_eq_zero, List.filter_eq_nil_iff]
  constructor
  · intro h hmem
    have hcontra := h (topic, l) hmem
    simp at hcontra
  · intro h e hmem
    simp only [decide_eq_true_eq]
    intro he
    exact h (he ▸ hmem)

theorem pairCount_register_self (reg : ListenerRegistry) (topic : UUri) (l : Listener) :
    pairCount (reg.register topic l) topic l = max (pairCount reg topic l) 1 := by
  by_cases h : (topic, l) ∈ reg
  · have hpos : pairCount reg topic l ≠ 0 := by
      intro hz
      exact (pairCount_eq_zero_iff reg topic l).mp hz h
    rw [ListenerRegistry.register, if_pos h]
    omega
  · have hz : pairCount reg topic l = 0 := (pairCount_eq_zero_iff reg topic l).mpr h
    rw [ListenerRegistry.register, if_neg h]
    have happ : pairCount (reg ++ [(topic, l)]) topic l = pairCount reg topic l + 1 := by
      simp [pairCount, List.filter_append]
    rw [happ, hz]
    omega

theorem pairCount_filter_remove (reg : ListenerRegistry) (topic : UUri) (l : Listener) :
    pairCount (reg.filter (fun e => e ≠ (topic, l))) topic l = 0 := by
  rw [pairCount_eq_zero_iff]
  simp [List.mem_filter]

theorem observedPayloads_dispatch (reg : ListenerRegistry) (topic : UUri)
    (m : UMessage) (l : Listener) :
    observedPayloads l (reg.dispatch topic m) =
      List.replicate (pairCount reg topic l) m.payload := by
  induction reg with
  | nil => rfl
  | cons e reg ih =>
      obtain ⟨t, k⟩ := e
      by_cases ht : t = topic
      · subst ht
        by_cases hk : k = l
        · subst hk
          simp only [ListenerRegistry.dispatch, observedPayloads, pairCount,
            List.filter_cons] at ih ⊢
          simp [ih, List.replicate_succ]
        · simp only [ListenerRegistry.dispatch, observedPayloads, pairCount,
            List.filter_cons] at ih ⊢
          simp [hk, ih]
      · simp only [ListenerRegistry.dispatch, observedPayloads, pairCount,
          List.filter_cons] at ih ⊢
        have hne : ¬ ((t, k) = (topic, l)) := by
          simp [Prod.ext_iff, ht]
        simp [ht, hne, ih]

theorem observedPayloads_send (reg : ListenerRegistry) (m : UMessage) (l : Listener) :
    observedPayloads l (LocalTransport.send reg m) =
      List.replicate (pairCount reg m.source l) m.payload :=
  observedPayloads_dispatch reg m.source m l

theorem observedPayloads_append (l : Listener) (a b : List (Listener × UMessage)) :
    observedPayloads l (a ++ b) = observedPayloads l a ++ observedPayloads l b := by
  simp [observedPayloads, List.filter_append]

/-! ## Claims -/

/-- Claim C1: for every topic T and listener L, after a successful
start_listening(T, L) with no intervening stop_listening, calling
stop_listening(T, L) succeeds (returns Ok), and a subsequent notify sent to
topic T does not invoke L. -/
theorem stop_listening_after_start_ok (reg : ListenerRegistry)
    (p : StaticUriProvider) (rid : Nat) (l : Listener) (dest : UUri)
    (pl : Option UPayload) :
    ∃ reg2 : ListenerRegistry,
      SimpleNotifier.stop_listening
          (SimpleNotifier.start_listening reg (p.get_resource_uri rid) l)
          (p.get_resource_uri rid) l = .ok reg2 ∧
        observedPayloads l (SimpleNotifier.notify p reg2 rid dest pl) = [] := by
  refine ⟨(SimpleNotifier.start_listening reg (p.get_resource_uri rid) l).filter
      (fun e => e ≠ (p.get_resource_uri rid, l)), ?_, ?_⟩
  · have hmem : (p.get_resource_uri rid, l) ∈
        SimpleNotifier.start_listening reg (p.get_resource_uri rid) l :=
      mem_register reg (p.get_resource_uri rid) l
    unfold SimpleNotifier.stop_listening ListenerRegistry.unregister
    rw [if_pos hmem]
  · unfold SimpleNotifier.notify
    rw [observedPayloads_send]
    show List.replicate
        (pairCount
          ((SimpleNotifier.start_listening reg (p.get_resource_uri rid) l).filter
            (fun e => e ≠ (p.get_resource_uri rid, l)))
          (p.get_resource_uri rid) l) pl = []
    rw [pairCount_filter_remove]
    rfl

/-- Claim C2: after a listener L is registered for topic
`uri_provider.resource_uri(R)`, `notify(R, D, P)` invokes L exactly once
with a message whose payload equals P; the destination does not affect
which listeners receive the message (routing is by source topic only). -/
theorem notify_delivers_exactly_once (reg : ListenerRegistry)
    (p : StaticUriProvider) (rid : Nat) (l : Listener) (dest d d' : UUri)
    (pl : Option UPayload)
    (h : (p.get_resource_uri rid, l) ∉ reg) :
    observedPayloads l
        (SimpleNotifier.notify p
          (SimpleNotifier.start_listening reg (p.get_resource_uri rid) l)
          rid dest pl) = [pl] ∧
      (SimpleNotifier.notify p
          (SimpleNotifier.start_listening reg (p.get_resource_uri rid) l)
          rid d pl).map Prod.fst =
        (SimpleNotifier.notify p
            (SimpleNotifier.start_listening reg (p.get_resource_uri rid) l)
            rid d' pl).map Prod.fst := by
  have h1 : pairCount
      (SimpleNotifier.start_listening reg (p.get_resource_uri rid) l)
      (p.get_resource_uri rid) l = 1 := by
    unfold SimpleNotifier.start_listening
    rw [pairCount_register_self, (pairCount_eq_zero_iff reg _ l).mpr h]
    omega
  constructor
  · unfold SimpleNotifier.notify
    rw [observedPayloads_send]
    show List.replicate
        (pairCount (SimpleNotifier.start_listening reg (p.get_resource_uri rid) l)
          (p.get_resource_uri rid) l) pl = [pl]
    rw [h1]
    rfl
  · simp [SimpleNotifier.notify, LocalTransport.send, ListenerRegistry.dispatch,
      SimpleNotifier.message, List.map_map]

/-- Claim C3: for every topic T with exactly N listeners registered before a
send to T, `dispatch` invokes exactly N listener calls (each registered
listener, each as often as it is registered), each invoked listener receives
a message equal to the one sent, and `dispatch` returns N as its count. -/
theorem dispatch_meets_contract (reg : ListenerRegistry) (topic : UUri)
    (m : UMessage) (N : Nat) (hN : reg.countListeners topic = N) :
    reg.dispatchCount topic m = N ∧
      (∀ e ∈ reg.dispatch topic m, e.2 = m) ∧
      (∀ l : Listener, (topic, l) ∈ reg → (l, m) ∈ reg.dispatch topic m) ∧
      (∀ l : Listener,
        (observedPayloads l (reg.dispatch topic m)).length = pairCount reg topic l) := by
  refine ⟨?_, ?_, ?_, ?_⟩
  · rw [← hN]
    simp [ListenerRegistry.dispatchCount, ListenerRegistry.dispatch,
      ListenerRegistry.countListeners]
  · intro e he
    simp only [ListenerRegistry.dispatch, List.mem_map] at he
    obtain ⟨a, _, rfl⟩ := he
    rfl
  · intro l hl
    simp only [ListenerRegistry.dispatch, List.mem_map]
    refine ⟨(topic, l), ?_, rfl⟩
    rw [List.mem_filter]
    exact ⟨hl, by simp⟩
  · intro l
    rw [observedPayloads_dispatch]
    simp

/-- Claim C4: for every well-formed message, `send` succeeds (returns Ok)
even when the target topic has zero registered listeners, and in that case
zero listener callbacks are invoked. -/
theorem send_zero_listeners_ok (reg : ListenerRegistry) (m : UMessage)
    (h : reg.countListeners m.source = 0) :
    LocalTransport.sendResult reg m = .ok [] := by
  unfold ListenerRegistry.countListeners at h
  rw [List.length_eq_zero] at h
  unfold LocalTransport.sendResult LocalTransport.send ListenerRegistry.dispatch
  rw [h]
  rfl

/-- Claim C5: `SimplePublisher.publish(R, P)` builds the message
`UMessage{source: uri_provider.resource_uri(R), destination: None,
kind: Publish, payload: P}` and passes exactly that message to
`transport.send`; publishing with no payload is legal and succeeds. -/
theorem publish_builds_publish_message (p : StaticUriProvider)
    (reg : ListenerRegistry) (rid : Nat) (pl : Option UPayload) :
    SimplePublisher.message p rid pl =
        { source := p.get_resource_uri rid, destination := none,
          kind := UMessageKind.publish, payload := pl } ∧
      SimplePublisher.publishResult p reg rid pl =
        LocalTransport.sendResult reg (SimplePublisher.message p rid pl) ∧
      SimplePublisher.publishResult p reg rid none =
        .ok (SimplePublisher.publish p reg rid none) :=
  ⟨rfl, rfl, rfl⟩

/-- Claim C6: registering the same (topic, listener) pair twice is
idempotent; the registry holds the listener once afterwards, and a single
subsequent send to the topic invokes the listener exactly once (so at most
once); other listeners are unaffected since the duplicate registration does
not change the registry. -/
theorem register_twice_idempotent (reg : ListenerRegistry) (topic : UUri)
    (l : Listener) (m : UMessage) (h : pairCount reg topic l ≤ 1)
    (hm : m.source = topic) :
    (reg.register topic l).register topic l = reg.register topic l ∧
      pairCount ((reg.register topic l).register topic l) topic l = 1 ∧
      observedPayloads l
          (LocalTransport.send ((reg.register topic l).register topic l) m) =
        [m.payload] := by
  have hid : (reg.register topic l).register topic l = reg.register topic l :=
    register_of_mem _ _ _ (mem_register reg topic l)
  have h1 : pairCount (reg.register topic l) topic l = 1 := by
    rw [pairCount_register_self]
    omega
  refine ⟨hid, ?_, ?_⟩
  · rw [hid, h1]
  · rw [hid, observedPayloads_send, hm, h1]
    rfl

/-- Claim C7: `unregister_listener` on a pair that is not currently
registered returns `ListenerNotFound` and leaves the registry unchanged. -/
theorem unregister_not_found (reg : ListenerRegistry) (topic : UUri)
    (l : Listener) (h : (topic, l) ∉ reg) :
    LocalTransport.unregister_listener reg topic l =
      (reg, some RegistrationError.listenerNotFound) := by
  unfold LocalTransport.unregister_listener ListenerRegistry.unregister
  rw [if_neg h]

/-- Claim C8: a single-threaded sender publishing a sequence of messages to
one topic on the local transport with one registered listener has the
listener observe all the messages, in the sender's program order. -/
theorem publishSeq_preserves_order (p : StaticUriProvider)
    (reg : ListenerRegistry) (rid : Nat) (l : Listener)
    (ps : List (Option UPayload))
    (h : pairCount reg (p.get_resource_uri rid) l = 1) :
    observedPayloads l (SimplePublisher.publishSeq p reg rid ps) = ps := by
  induction ps with
  | nil => rfl
  | cons pl rest ih =>
      have hone : observedPayloads l (SimplePublisher.publish p reg rid pl) = [pl] := by
        unfold SimplePublisher.publish
        rw [observedPayloads_send]
        show List.replicate (pairCount reg (p.get_resource_uri rid) l) pl = [pl]
        rw [h]
        rfl
      simp only [SimplePublisher.publishSeq]
      rw [observedPayloads_append, hone, ih]
      rfl

/-- Claim C9: `LocalTransport.register_listener` is called as
(uri_provider, resource_id, listener) and subscribes the listener to
`uri_provider.get_resource_uri(resource_id)` — the same registry update as
`UPTransportZenoh.register_listener`, which is called as
(topic_uri, listener); a publish of that resource id through a
SimplePublisher built from the same provider is then delivered to the
listener. -/
theorem register_listener_signatures (provider : StaticUriProvider)
    (rid : Nat) (l : Listener) (reg : ListenerRegistry) (pl : Option UPayload)
    (h : (provider.get_resource_uri rid, l) ∉ reg) :
    LocalTransport.register_listener reg provider rid l =
        UPTransportZenoh.register_listener reg (provider.get_resource_uri rid) l ∧
      observedPayloads l
          (SimplePublisher.publish provider
            (LocalTransport.register_listener reg provider rid l) rid pl) =
        [pl] := by
  refine ⟨rfl, ?_⟩
  unfold SimplePublisher.publish
  rw [observedPayloads_send]
  show List.replicate
      (pairCount (LocalTransport.register_listener reg provider rid l)
        (provider.get_resource_uri rid) l) pl = [pl]
  have h1 : pairCount (LocalTransport.register_listener reg provider rid l)
      (provider.get_resource_uri rid) l = 1 := by
    unfold LocalTransport.register_listener
    rw [pairCount_register_self, (pairCount_eq_zero_iff reg _ l).mpr h]
    omega
  rw [h1]
  rfl

/-- Witness for claim C2 at concrete inputs: the test scenario (listener 7
on topic 0xd100 of the test provider, payload "hello"). -/
theorem notify_delivers_exactly_once_witness :
    (sampleProvider.get_resource_uri 0xd100, 7) ∉ ([] : ListenerRegistry) ∧
      (observedPayloads 7
          (SimpleNotifier.notify sampleProvider
            (SimpleNotifier.start_listening []
              (sampleProvider.get_resource_uri 0xd100) 7)
            0xd100 sampleDest (some samplePayload)) = [some samplePayload] ∧
        (SimpleNotifier.notify sampleProvider
            (SimpleNotifier.start_listening []
              (sampleProvider.get_resource_uri 0xd100) 7)
            0xd100 sampleDest (some samplePayload)).map Prod.fst =
          (SimpleNotifier.notify sampleProvider
              (SimpleNotifier.start_listening []
                (sampleProvider.get_resource_uri 0xd100) 7)
              0xd100 sampleTopic (some samplePayload)).map Prod.fst) :=
  ⟨by decide,
    notify_delivers_exactly_once [] sampleProvider 0xd100 7 sampleDest
      sampleDest sampleTopic (some samplePayload) (by decide)⟩

/-- Witness for claim C3 at concrete inputs: two listeners on the topic. -/
theorem dispatch_meets_contract_witness :
    ListenerRegistry.countListeners [(sampleTopic, 1), (sampleTopic, 2)] sampleTopic = 2 ∧
      (ListenerRegistry.dispatchCount [(sampleTopic, 1), (sampleTopic, 2)]
          sampleTopic sampleMessage = 2 ∧
        (∀ e ∈ ListenerRegistry.dispatch [(sampleTopic, 1), (sampleTopic, 2)]
            sampleTopic sampleMessage, e.2 = sampleMessage) ∧
        (∀ l : Listener, (sampleTopic, l) ∈ [(sampleTopic, 1), (sampleTopic, 2)] →
          (l, sampleMessage) ∈ ListenerRegistry.dispatch
            [(sampleTopic, 1), (sampleTopic, 2)] sampleTopic sampleMessage) ∧
        (∀ l : Listener,
          (observedPayloads l (ListenerRegistry.dispatch
            [(sampleTopic, 1), (sampleTopic, 2)] sampleTopic sampleMessage)).length =
            pairCount [(sampleTopic, 1), (sampleTopic, 2)] sampleTopic l)) :=
  ⟨by decide,
    dispatch_meets_contract [(sampleTopic, 1), (sampleTopic, 2)] sampleTopic
      sampleMessage 2 (by decide)⟩

/-- Witness for claim C4 at concrete inputs: a registry whose only listener
is on a different topic than the message's source. -/
theorem send_zero_listeners_ok_witness :
    ListenerRegistry.countListeners [(sampleDest, 3)] sampleMessage.source = 0 ∧
      LocalTransport.sendResult [(sampleDest, 3)] sampleMessage = .ok [] :=
  ⟨by decide, send_zero_listeners_ok [(sampleDest, 3)] sampleMessage (by decide)⟩

/-- Witness for claim C6 at concrete inputs: listener 7 registered twice on
the sample topic, then one send. -/
theorem register_twice_idempotent_witness :
    pairCount [] sampleTopic 7 ≤ 1 ∧
      sampleMessage.source = sampleTopic ∧
      ((ListenerRegistry.register (ListenerRegistry.register [] sampleTopic 7)
            sampleTopic 7 = ListenerRegistry.register [] sampleTopic 7) ∧
        pairCount (ListenerRegistry.register (ListenerRegistry.register []
          sampleTopic 7) sampleTopic 7) sampleTopic 7 = 1 ∧
        observedPayloads 7
            (LocalTransport.send (ListenerRegistry.register
              (ListenerRegistry.register [] sampleTopic 7) sampleTopic 7)
              sampleMessage) =
          [sampleMessage.payload]) :=
  ⟨by decide, by decide,
    register_twice_idempotent [] sampleTopic 7 sampleMessage (by decide) (by decide)⟩

/-- Witness for claim C7 at concrete inputs: unregistering listener 2, which
was never registered, while listener 1 is registered on the topic. -/
theorem unregister_not_found_witness :
    (sampleTopic, 2) ∉ [(sampleTopic, 1)] ∧
      LocalTransport.unregister_listener [(sampleTopic, 1)] sampleTopic 2 =
        ([(sampleTopic, 1)], some RegistrationError.listenerNotFound) :=
  ⟨by decide, unregister_not_found [(sampleTopic, 1)] sampleTopic 2 (by decide)⟩

/-- Witness for claim C8 at concrete inputs: three payloads published in
order to one registered listener. -/
theorem publishSeq_preserves_order_witness :
    pairCount [(sampleProvider.get_resource_uri 0xd100, 7)]
        (sampleProvider.get_resource_uri 0xd100) 7 = 1 ∧
      observedPayloads 7
          (SimplePublisher.publishSeq sampleProvider
            [(sampleProvider.get_resource_uri 0xd100, 7)] 0xd100
            [some samplePayload, none, some (UPayload.from_bytes [50])]) =
        [some samplePayload, none, some (UPayload.from_bytes [50])] :=
  ⟨by decide,
    publishSeq_preserves_order sampleProvider
      [(sampleProvider.get_resource_uri 0xd100, 7)] 0xd100 7
      [some samplePayload, none, some (UPayload.from_bytes [50])] (by decide)⟩

/-- Witness for claim C9 at concrete inputs: listener 5 registered through
the LocalTransport signature, then a publish of the same resource id. -/
theorem register_listener_signatures_witness :
    (sampleProvider.get_resource_uri 0x8001, 5) ∉ ([] : ListenerRegistry) ∧
      (LocalTransport.register_listener [] sampleProvider 0x8001 5 =
          UPTransportZenoh.register_listener []
            (sampleProvider.get_resource_uri 0x8001) 5 ∧
        observedPayloads 5
            (SimplePublisher.publish sampleProvider
              (LocalTransport.register_listener [] sampleProvider 0x8001 5)
              0x8001 (some samplePayload)) =
          [some samplePayload]) :=
  ⟨by decide,
    register_listener_signatures sampleProvider 0x8001 5 [] (some samplePayload)
      (by decide)⟩

/-- Claim C10: importing `up_py_rs.zenoh_transport` when the native Zenoh
backend is absent raises an ImportError whose message instructs to install
up-py-rs with the zenoh extra and which chains the original import error;
when the backend is present the module exports exactly `UPTransportZenoh`
and `UPTransportZenohBuilder`. -/
theorem zenoh_import_guard (e : String) :
    zenohTransportModuleInit (.error e) =
        .importError
          "Zenoh transport not available. Install with: pip install up-py-rs[zenoh]"
          (some e) ∧
      zenohTransportModuleInit (.ok ()) =
        .ok ["UPTransportZenoh", "UPTransportZenohBuilder"] :=
  ⟨rfl, rfl⟩

end UpPyRs
